import Mathlib

/-!
Shallow embedding of the `my-backend-services` repository (FastAPI services:
AuthServices, DIscountServices, ProductServices) and proofs about the claims
of its specification.

Modelling conventions, used throughout:
* Database tables are ordered lists of row structures; the list order is the
  order in which an unfiltered `fetchall` yields the rows, so "the first row
  the query returns" is the head of the filtered list.
* Machine time (`datetime.utcnow`) is a `Nat`, measured in minutes where token
  lifetimes are involved.
* bcrypt / passlib hashing is external to the repository and is modelled as an
  oracle (`PwOracle`) passed to every function that hashes or verifies.
* A raised `HTTPException(status_code, detail)` is the value `HErr`.
* SQL Server `COLLATE Latin1_General_CI_AS` comparison is modelled as equality
  of lowercased strings (`sqlCI`); the case mapping is the ASCII one, enough
  for the names the claims quantify over.
-/

namespace Spec2Proof

/-- Payload of a raised `HTTPException`: HTTP status code and detail message. -/
structure HErr where
  statusCode : Nat
  detail : String
deriving DecidableEq, Repr

deriving instance DecidableEq for Except

/-- ASCII lowercasing of one character: the case mapping this development
needs for the CI collation and for Python `str.lower` on the names the claims
quantify over. -/
def lowerChar (c : Char) : Char :=
  if 65 ≤ c.toNat ∧ c.toNat ≤ 90 then Char.ofNat (c.toNat + 32) else c

/-- Case-insensitive SQL comparison (`COLLATE Latin1_General_CI_AS`):
equality of lowercased strings. -/
def sqlCI (a b : String) : Bool :=
  a.toList.map lowerChar == b.toList.map lowerChar

/-- Python `str.lower` (ASCII case mapping). -/
def pyLower (s : String) : String := ⟨s.toList.map lowerChar⟩

/-- Does an `Except` hold a success value? -/
def isOk {ε α : Type} : Except ε α → Bool
  | .ok _ => true
  | .error _ => false

/-- Python truthiness of an optional string: `None` and `""` are falsy. -/
def strTruthy : Option String → Bool
  | none => false
  | some s => s != ""

/-- External password hashing (passlib `CryptContext` / `bcrypt`), modelled as
an oracle: `hashpw` is the salted hash function, `checkpw plain hash` the
verification. -/
structure PwOracle where
  hashpw : String → String
  checkpw : String → String → Bool

/-! ## AuthServices/routers/auth.py -/

/-- One row of the `Users` table, in the columns the services read. NULL-able
columns are `Option`; `isDisabled` is the raw integer column. -/
structure UserRow where
  userID : Nat
  fullName : String
  username : Option String
  userPassword : Option String
  userRole : String
  isDisabled : Nat
  emailAddress : String
  uploadImage : Option String := none
  phoneNumber : Option String := none
  hireDate : Option Nat := none
  createdAt : Nat := 0
deriving DecidableEq, Repr

/-- The `Users` table in the order rows come back from a `SELECT`. -/
abbrev UsersTable := List UserRow

/-- Pydantic model `UserInDB` of auth.py. -/
structure UserInDB where
  username : String
  hashed_password : String
  userRole : String
  disabled : Bool
deriving DecidableEq, Repr

/-- auth.py `ACCESS_TOKEN_EXPIRE_MINUTES`. -/
def ACCESS_TOKEN_EXPIRE_MINUTES : Nat := 30

/-- `get_users_from_db`: `SELECT Username, UserPassword, UserRole, isDisabled
FROM Users WHERE Username = ?`, one `UserInDB` per matching row, in query
order; `disabled := (isDisabled == 1)`. A NULL password column is read as the
empty string. -/
def get_users_from_db (db : UsersTable) (username : String) : List UserInDB :=
  (db.filter (fun r => r.username == some username)).map
    (fun r =>
      { username := r.username.getD ""
        hashed_password := r.userPassword.getD ""
        userRole := r.userRole
        disabled := r.isDisabled == 1 })

/-- `verify_password` via the hashing oracle. -/
def verify_password (o : PwOracle) (plain hashed : String) : Bool :=
  o.checkpw plain hashed

/-- `authenticate_user`: first user row (for the username) whose stored hash
verifies the password; `None` when no row verifies. -/
def authenticate_user (o : PwOracle) (db : UsersTable) (username password : String) :
    Option UserInDB :=
  (get_users_from_db db username).find?
    (fun u => verify_password o password u.hashed_password)

/-- The claims a signed token carries (`sub`, `role`, `exp`), plus whether its
signature verifies against `SECRET_KEY` (the cryptography is modelled as a
flag). -/
structure TokenClaims where
  sub : Option String
  role : String
  exp : Nat
  validSignature : Bool := true
deriving DecidableEq, Repr

/-- `create_access_token`: expiry is `utcnow + expires_delta` when a delta is
passed and `utcnow + 15` minutes otherwise; the payload (`sub`, `role`) is
signed with the service key. -/
def create_access_token (now : Nat) (sub : Option String) (role : String)
    (expires_delta : Option Nat) : TokenClaims :=
  { sub := sub
    role := role
    exp := now + (match expires_delta with | some d => d | none => 15)
    validSignature := true }

/-- `jwt.decode`: yields the payload when the signature verifies and the token
is not expired at the current time, raises `JWTError` (here: `none`)
otherwise. -/
def jwtDecode (now : Nat) (t : TokenClaims) : Option TokenClaims :=
  if t.validSignature && now < t.exp then some t else none

/-- The 401 `credential_exception` of `get_current_user`. -/
def credential_exception : HErr :=
  { statusCode := 401, detail := "Could not validate credentials" }

/-- `get_current_user`: decode the token (401 on decode/signature/expiry
failure or missing `sub`), re-query the `Users` table by the embedded subject
(401 when no row matches), and return the FIRST row of the query result. -/
def get_current_user (db : UsersTable) (now : Nat) (token : TokenClaims) :
    Except HErr UserInDB :=
  match jwtDecode now token with
  | none => .error credential_exception
  | some payload =>
    match payload.sub with
    | none => .error credential_exception
    | some username =>
      match get_users_from_db db username with
      | [] => .error credential_exception
      | u :: _ => .ok u

/-- `get_current_active_user`: reject the resolved user with
`HTTPException(400, "Inactive user")` when its row is disabled. -/
def get_current_active_user (db : UsersTable) (now : Nat) (token : TokenClaims) :
    Except HErr UserInDB :=
  match get_current_user db now token with
  | .error e => .error e
  | .ok u =>
    if u.disabled then .error { statusCode := 400, detail := "Inactive user" }
    else .ok u

/-- `role_required(required_roles)`: on top of `get_current_active_user`,
reject with 403 "Access denied" when the re-read role is not in the
allow-list. -/
def role_required (required_roles : List String) (db : UsersTable) (now : Nat)
    (token : TokenClaims) : Except HErr UserInDB :=
  match get_current_active_user db now token with
  | .error e => .error e
  | .ok u =>
    if required_roles.contains u.userRole then .ok u
    else .error { statusCode := 403, detail := "Access denied" }

/-- `login_for_access_token`: authenticate, 401 "Incorrect username or
password" on failure, otherwise issue a token for `sub := username`,
`role := userRole` with `expires_delta := ACCESS_TOKEN_EXPIRE_MINUTES`. -/
def login_for_access_token (o : PwOracle) (db : UsersTable) (now : Nat)
    (username password : String) : Except HErr TokenClaims :=
  match authenticate_user o db username password with
  | none => .error { statusCode := 401, detail := "Incorrect username or password" }
  | some user =>
      .ok (create_access_token now (some user.username) user.userRole
        (some ACCESS_TOKEN_EXPIRE_MINUTES))

/-- Toy hashing oracle for concrete witnesses: the "hash" of `p` is `"H" ++ p`
and verification checks exactly that shape. -/
def toyOracle : PwOracle :=
  { hashpw := fun p => "H" ++ p
    checkpw := fun p h => h == "H" ++ p }

/-! ## Claim C9 -/

/-- C9: a successful authentication issues a token whose expiry is issuance
time plus the 30-minute access-token default, while `create_access_token`
called without an explicit `expires_delta` defaults to 15 minutes. -/
theorem C9_token_expiry_defaults :
    (∀ now sub role, (create_access_token now sub role none).exp = now + 15) ∧
    ACCESS_TOKEN_EXPIRE_MINUTES = 30 ∧
    (∀ o db now username password tok,
      login_for_access_token o db now username password = .ok tok →
      tok.exp = now + 30) := by
  refine ⟨fun now sub role => rfl, rfl, fun o db now username password tok h => ?_⟩
  unfold login_for_access_token at h
  cases ha : authenticate_user o db username password with
  | none => rw [ha] at h; cases h
  | some u =>
      rw [ha] at h
      cases h
      rfl

/-- Witness for C9: a concrete successful login whose token expires 30 minutes
after issuance. -/
theorem C9_token_expiry_defaults_witness :
    (login_for_access_token toyOracle
      [{ userID := 1, fullName := "Admin User", username := some "admin",
         userPassword := some "Hadmin123", userRole := "admin", isDisabled := 0,
         emailAddress := "a@b" }] 7 "admin" "admin123" =
      .ok { sub := some "admin", role := "admin", exp := 37, validSignature := true }) ∧
    ({ sub := some "admin", role := "admin", exp := 37,
       validSignature := true : TokenClaims }).exp = 7 + 30 := by
  constructor
  · rfl
  · exact C9_token_expiry_defaults.2.2 toyOracle
      [{ userID := 1, fullName := "Admin User", username := some "admin",
         userPassword := some "Hadmin123", userRole := "admin", isDisabled := 0,
         emailAddress := "a@b" }] 7 "admin" "admin123" _ (by rfl)

/-! ## Claim C3 -/

/-- C3: token resolution returns the first row the `Users` query yields for
the token's embedded subject, whatever role the token itself claims; the
disabled flag and role a protected call then checks are those of that first
row. -/
theorem C3_resolution_returns_first_row (db : UsersTable) (now : Nat)
    (token : TokenClaims) (u : String) (r : UserInDB) (rest : List UserInDB)
    (hsig : token.validSignature = true) (hexp : now < token.exp)
    (hsub : token.sub = some u)
    (hrows : get_users_from_db db u = r :: rest) :
    get_current_user db now token = .ok r ∧
    get_current_active_user db now token =
      (if r.disabled then .error { statusCode := 400, detail := "Inactive user" }
       else .ok r) := by
  have hdec : jwtDecode now token = some token := by
    unfold jwtDecode
    simp [hsig, hexp]
  have hcur : get_current_user db now token = .ok r := by
    unfold get_current_user
    rw [hdec]
    simp only [hsub, hrows]
  refine ⟨hcur, ?_⟩
  unfold get_current_active_user
  rw [hcur]

/-- Witness for C3: two active-table rows share the sentinel username
"cashier"; the token resolves to the first row even though the second cashier
(who may be the one that authenticated) is disabled. -/
theorem C3_resolution_returns_first_row_witness :
    get_current_user
      [{ userID := 2, fullName := "Cashier One", username := some "cashier",
         userPassword := some "H111111", userRole := "cashier", isDisabled := 0,
         emailAddress := "c1@x" },
       { userID := 3, fullName := "Cashier Two", username := some "cashier",
         userPassword := some "H222222", userRole := "cashier", isDisabled := 1,
         emailAddress := "c2@x" }] 0
      { sub := some "cashier", role := "cashier", exp := 30 } =
      .ok { username := "cashier", hashed_password := "H111111",
            userRole := "cashier", disabled := false } := by
  exact (C3_resolution_returns_first_row _ 0 _ "cashier" _
    [{ username := "cashier", hashed_password := "H222222",
       userRole := "cashier", disabled := true }]
    rfl (by decide) rfl (by rfl)).1

/-! ## Claim C2 -/

/-- C2 counterexample: a valid token for a user whose (single) row has been
disabled; the very next protected call fails, but with HTTP 400 "Inactive
user", which is neither 401 nor 403 as the claim states. -/
theorem C2_disabled_user_counterexample :
    (get_current_active_user
      [{ userID := 5, fullName := "Alice", username := some "alice",
         userPassword := some "Hpw", userRole := "admin", isDisabled := 1,
         emailAddress := "al@x" }] 0
      { sub := some "alice", role := "admin", exp := 30 } =
      .error { statusCode := 400, detail := "Inactive user" }) ∧
    ¬((400 : Nat) = 401 ∨ (400 : Nat) = 403) := by
  constructor
  · rfl
  · decide

/-- C2 amended: disabling the user row that token resolution yields (the first
`Users` row for the token's subject) between issuance and use makes the very
next protected call fail — with HTTP 400 "Inactive user", not 401/403 — and
the role/disabled state is re-read from the table on each call (the token's
own role claim is quantified arbitrarily and never consulted). -/
theorem C2_disabled_user_next_call_fails (db : UsersTable) (now : Nat)
    (token : TokenClaims) (u : String) (r : UserInDB) (rest : List UserInDB)
    (hsig : token.validSignature = true) (hexp : now < token.exp)
    (hsub : token.sub = some u)
    (hrows : get_users_from_db db u = r :: rest)
    (hdis : r.disabled = true) :
    get_current_active_user db now token =
      .error { statusCode := 400, detail := "Inactive user" } ∧
    ∀ roles, role_required roles db now token =
      .error { statusCode := 400, detail := "Inactive user" } := by
  have h := (C3_resolution_returns_first_row db now token u r rest
    hsig hexp hsub hrows).2
  rw [hdis] at h
  simp only [if_true] at h
  refine ⟨h, fun roles => ?_⟩
  unfold role_required
  rw [h]

/-- Witness for C2's amended statement at a concrete disabled row. -/
theorem C2_disabled_user_next_call_fails_witness :
    role_required ["admin"]
      [{ userID := 5, fullName := "Alice", username := some "alice",
         userPassword := some "Hpw", userRole := "admin", isDisabled := 1,
         emailAddress := "al@x" }] 0
      { sub := some "alice", role := "admin", exp := 30 } =
      .error { statusCode := 400, detail := "Inactive user" } := by
  exact (C2_disabled_user_next_call_fails _ 0 _ "alice"
    { username := "alice", hashed_password := "Hpw",
      userRole := "admin", disabled := true } []
    rfl (by decide) rfl (by rfl) rfl).2 ["admin"]

/-! ## Remote role gates
DIscountServices/routers/discount.py `validate_token_and_roles_port9000`,
ProductServices/routers/products.py `validate_token_and_roles_is_caller` and
`validate_token_and_roles_direct_pos_caller`, and the inline token validation
of ProductServices/routers/ProductType.py `create_product_type`. -/

/-- Body of the auth service's `/auth/users/me` reply as the downstream
services read it. -/
structure AuthUserData where
  username : String
  userRole : String
  disabled : Bool
deriving DecidableEq, Repr

/-- Outcome of the outbound `httpx` GET to the auth service: a response with
some status code, parsed body and error-detail text, or a connection-level
failure (`httpx.RequestError`). For non-2xx responses `detail` is the message
fragment the caller extracts from the body (JSON `detail` field when present,
raw text otherwise). -/
inductive AuthCallOutcome where
  | response (statusCode : Nat) (userData : AuthUserData) (detail : String)
  | requestError (msg : String)
deriving DecidableEq, Repr

/-- Status codes `response.raise_for_status` lets through (2xx). -/
def is2xx (s : Nat) : Bool := 200 ≤ s && s < 300

/-- discount.py `validate_token_and_roles_port9000`: non-2xx auth response →
`HTTPException` with the upstream status and message; connection failure →
503; then, when a non-empty allow-list was passed (`if allowed_roles:`), roles
outside it → 403. -/
def validate_token_and_roles_port9000 (outcome : AuthCallOutcome)
    (allowed_roles : Option (List String)) : Except HErr AuthUserData :=
  match outcome with
  | .requestError msg =>
      .error { statusCode := 503
               detail := "Could not connect to auth service (9000): " ++ msg }
  | .response st ud d =>
      if is2xx st then
        let roles := allowed_roles.getD []
        if roles.isEmpty then .ok ud
        else if roles.contains ud.userRole then .ok ud
        else .error { statusCode := 403
                      detail := "Access denied (9000). User does not have the required role." }
      else
        .error { statusCode := st, detail := "Auth service (9000) error: " ++ d }

/-- products.py `validate_token_and_roles_is_caller`: same error mapping with
the POS message texts; the allow-list is always checked. -/
def validate_token_and_roles_is_caller (outcome : AuthCallOutcome)
    (allowed_roles : List String) : Except HErr AuthUserData :=
  match outcome with
  | .requestError msg =>
      .error { statusCode := 503, detail := "POS: Auth service unavailable: " ++ msg }
  | .response st ud d =>
      if is2xx st then
        if allowed_roles.contains ud.userRole then .ok ud
        else .error { statusCode := 403
                      detail := "POS: Access denied. Calling service/user does not have the required role." }
      else
        .error { statusCode := st
                 detail := "POS: Auth service (for IS token) error: " ++ toString st ++ " - " ++ d }

/-- products.py `validate_token_and_roles_direct_pos_caller`: identical flow
against the port-9000 auth service. -/
def validate_token_and_roles_direct_pos_caller (outcome : AuthCallOutcome)
    (allowed_roles : List String) : Except HErr AuthUserData :=
  match outcome with
  | .requestError msg =>
      .error { statusCode := 503, detail := "POS: Auth service unavailable: " ++ msg }
  | .response st ud d =>
      if is2xx st then
        if allowed_roles.contains ud.userRole then .ok ud
        else .error { statusCode := 403
                      detail := "POS: Access denied (direct POS access). User does not have the required role." }
      else
        .error { statusCode := st
                 detail := "POS: Auth service (direct) error: " ++ toString st ++ " - " ++ d }

/-- A Python-level failure of a handler: either a raised `HTTPException` or an
exception that no `except` clause catches and that escapes the handler. -/
inductive PyErr where
  | http (e : HErr)
  | unhandled (msg : String)
deriving DecidableEq, Repr

/-- ProductType.py `create_product_type`, token-validation part: the `httpx`
call has no `try/except`, so a `RequestError` escapes the handler unhandled;
any response status other than 200 is rejected with the handler's own 401
message; a 200 response with a non-admin role is rejected with 403. -/
def create_product_type_auth (outcome : AuthCallOutcome) : Except PyErr AuthUserData :=
  match outcome with
  | .requestError msg => .error (.unhandled msg)
  | .response st ud _ =>
      if st ≠ 200 then
        .error (.http { statusCode := 401
                        detail := "Invalid or expired token (checked by 9001)" })
      else if ud.userRole ≠ "admin" then
        .error (.http { statusCode := 403
                        detail := "Access denied (user role insufficient, checked by 9001)" })
      else .ok ud

/-! ## Claim C1 -/

/-- C1 counterexample: the product-type handler receives a 403 reply from the
auth service (body detail "Access denied") and fails with 401 and its own
message — not with the upstream status 403 and upstream message, as the claim
asserts for every downstream handler. -/
theorem C1_product_type_auth_counterexample :
    create_product_type_auth
      (.response 403
        { username := "bob", userRole := "manager", disabled := false }
        "Access denied") =
      .error (.http { statusCode := 401
                      detail := "Invalid or expired token (checked by 9001)" }) ∧
    (401 : Nat) ≠ 403 := by
  exact ⟨rfl, by decide⟩

/-- C1 amended: the discount-service validator and the two product-service
validators do map a non-2xx auth reply to the same upstream status (with a
message built from the upstream detail) and a connection failure to 503 —
never 401/403 — but the product-type creation handler instead rejects every
non-200 auth reply with 401 and its own message, and lets connection failures
escape unhandled rather than returning 503. -/
theorem C1_remote_gate_error_mapping :
    (∀ msg roles, validate_token_and_roles_port9000 (.requestError msg) roles =
        .error { statusCode := 503
                 detail := "Could not connect to auth service (9000): " ++ msg } ∧
        (503 : Nat) ≠ 401 ∧ (503 : Nat) ≠ 403) ∧
    (∀ st ud d roles, is2xx st = false →
      validate_token_and_roles_port9000 (.response st ud d) roles =
        .error { statusCode := st, detail := "Auth service (9000) error: " ++ d }) ∧
    (∀ msg roles, validate_token_and_roles_is_caller (.requestError msg) roles =
        .error { statusCode := 503, detail := "POS: Auth service unavailable: " ++ msg }) ∧
    (∀ st ud d roles, is2xx st = false →
      validate_token_and_roles_is_caller (.response st ud d) roles =
        .error { statusCode := st
                 detail := "POS: Auth service (for IS token) error: " ++ toString st ++ " - " ++ d }) ∧
    (∀ msg roles, validate_token_and_roles_direct_pos_caller (.requestError msg) roles =
        .error { statusCode := 503, detail := "POS: Auth service unavailable: " ++ msg }) ∧
    (∀ st ud d roles, is2xx st = false →
      validate_token_and_roles_direct_pos_caller (.response st ud d) roles =
        .error { statusCode := st
                 detail := "POS: Auth service (direct) error: " ++ toString st ++ " - " ++ d }) ∧
    (∀ st ud d, st ≠ 200 →
      create_product_type_auth (.response st ud d) =
        .error (.http { statusCode := 401
                        detail := "Invalid or expired token (checked by 9001)" })) ∧
    (∀ msg, create_product_type_auth (.requestError msg) = .error (.unhandled msg)) := by
  refine ⟨fun msg roles => ⟨rfl, by decide, by decide⟩,
          fun st ud d roles h => ?_,
          fun msg roles => rfl,
          fun st ud d roles h => ?_,
          fun msg roles => rfl,
          fun st ud d roles h => ?_,
          fun st ud d h => ?_,
          fun msg => rfl⟩
  · unfold validate_token_and_roles_port9000
    simp [h]
  · unfold validate_token_and_roles_is_caller
    simp [h]
  · unfold validate_token_and_roles_direct_pos_caller
    simp [h]
  · unfold create_product_type_auth
    simp [h]

/-- Witness for C1's amended statement at concrete upstream failures. -/
theorem C1_remote_gate_error_mapping_witness :
    validate_token_and_roles_port9000
      (.response 401 { username := "x", userRole := "admin", disabled := false }
        "Could not validate credentials") (some ["admin"]) =
      .error { statusCode := 401
               detail := "Auth service (9000) error: Could not validate credentials" } ∧
    create_product_type_auth (.requestError "conn refused") =
      .error (.unhandled "conn refused") := by
  exact ⟨C1_remote_gate_error_mapping.2.1 401
      { username := "x", userRole := "admin", disabled := false }
      "Could not validate credentials" (some ["admin"]) (by decide),
    C1_remote_gate_error_mapping.2.2.2.2.2.2.2 "conn refused"⟩

/-! ## DIscountServices/routers/discount.py -/

/-- The columns of `Products` that discount.py reads. -/
structure ProductRef where
  productID : Nat
  productName : String
deriving DecidableEq, Repr

/-- One row of the `Discounts` table. Dates and `CreatedAt` are `Nat` points
on the `datetime` line; the decimal money/percentage columns are `Rat`. -/
structure DiscountRow where
  discountID : Nat
  discountName : String
  productID : Nat
  percentageValue : Rat
  minimumSpend : Option Rat
  validFrom : Nat
  validTo : Nat
  userID : Nat
  status : String
  createdAt : Nat
deriving DecidableEq, Repr

/-- The state discount.py reads and writes: the `Users` id/name pairs, the
`Products` rows, the `Discounts` rows (in query order), and the next identity
value of `DiscountID`. -/
structure DiscountDB where
  users : List (Nat × String)
  products : List ProductRef
  discounts : List DiscountRow
  nextDiscountID : Nat
deriving DecidableEq, Repr

/-- Body of a discount create/update request (`DiscountCreate` /
`DiscountUpdate`): both share all fields of `DiscountBase`. -/
structure DiscountPayload where
  DiscountName : String
  ProductName : String
  PercentageValue : Rat
  MinimumSpend : Option Rat
  ValidFrom : Nat
  ValidTo : Nat
  Username : String
  Status : String
deriving DecidableEq, Repr

/-- The `HTTPException`s discount.py raises, one constructor per raise site;
`statusCode` gives the HTTP status each carries. In the spec's taxonomy,
`duplicateName` is the `Conflict` condition and `badDateRange` the
`ValidationError` condition. -/
inductive DiscountError where
  | userNotFound (username : String)
  | productNotFound (name : String)
  | duplicateName (name : String)
  | badDateRange
  | discountNotFound (id : Nat)
deriving DecidableEq, Repr

/-- HTTP status of each discount.py error. -/
def DiscountError.statusCode : DiscountError → Nat
  | .userNotFound _ => 404
  | .productNotFound _ => 404
  | .duplicateName _ => 400
  | .badDateRange => 400
  | .discountNotFound _ => 404

/-- `get_user_id_from_username`: case-insensitive `Users` lookup, 404 when the
username resolves to no row. -/
def get_user_id_from_username (db : DiscountDB) (username : String) :
    Except DiscountError Nat :=
  match db.users.find? (fun u => sqlCI u.2 username) with
  | none => .error (.userNotFound username)
  | some u => .ok u.1

/-- `create_discount` (post-authorization): resolve the payload's username and
product name (case-insensitive), reject a case-insensitive duplicate
`DiscountName`, reject `ValidFrom >= ValidTo`, then insert the row with
`CreatedAt := GETUTCDATE()`. Errors leave the table unchanged. -/
def create_discount (db : DiscountDB) (d : DiscountPayload) (now : Nat) :
    Except DiscountError DiscountRow × DiscountDB :=
  match get_user_id_from_username db d.Username with
  | .error e => (.error e, db)
  | .ok uid =>
    match db.products.find? (fun p => sqlCI p.productName d.ProductName) with
    | none => (.error (.productNotFound d.ProductName), db)
    | some prod =>
      if db.discounts.any (fun r => sqlCI r.discountName d.DiscountName) then
        (.error (.duplicateName d.DiscountName), db)
      else if d.ValidTo ≤ d.ValidFrom then
        (.error .badDateRange, db)
      else
        let row : DiscountRow :=
          { discountID := db.nextDiscountID
            discountName := d.DiscountName
            productID := prod.productID
            percentageValue := d.PercentageValue
            minimumSpend := d.MinimumSpend
            validFrom := d.ValidFrom
            validTo := d.ValidTo
            userID := uid
            status := d.Status
            createdAt := now }
        (.ok row,
         { db with discounts := db.discounts ++ [row]
                   nextDiscountID := db.nextDiscountID + 1 })

/-- `update_discount` (post-authorization): resolve the username, check the
discount exists, resolve the product, reject a case-insensitive duplicate
`DiscountName` on ANOTHER discount, reject `ValidFrom >= ValidTo`, then
overwrite every updatable column of the row (its `CreatedAt` is kept). Errors
leave the table unchanged. -/
def update_discount (db : DiscountDB) (discount_id : Nat) (d : DiscountPayload) :
    Except DiscountError DiscountRow × DiscountDB :=
  match get_user_id_from_username db d.Username with
  | .error e => (.error e, db)
  | .ok uid =>
    if ¬ db.discounts.any (fun r => r.discountID == discount_id) then
      (.error (.discountNotFound discount_id), db)
    else
      match db.products.find? (fun p => sqlCI p.productName d.ProductName) with
      | none => (.error (.productNotFound d.ProductName), db)
      | some prod =>
        if db.discounts.any (fun r =>
            sqlCI r.discountName d.DiscountName && r.discountID != discount_id) then
          (.error (.duplicateName d.DiscountName), db)
        else if d.ValidTo ≤ d.ValidFrom then
          (.error .badDateRange, db)
        else
          let upd : DiscountRow → DiscountRow := fun r =>
            if r.discountID == discount_id then
              { r with discountName := d.DiscountName
                       productID := prod.productID
                       percentageValue := d.PercentageValue
                       minimumSpend := d.MinimumSpend
                       validFrom := d.ValidFrom
                       validTo := d.ValidTo
                       userID := uid
                       status := d.Status }
            else r
          let db' := { db with discounts := db.discounts.map upd }
          match db'.discounts.find? (fun r => r.discountID == discount_id) with
          | none => (.error (.discountNotFound discount_id), db')
          | some r => (.ok r, db')

/-! ## Claim C7 -/

/-- C7: after a discount is created under one name, creating a second discount
whose name differs only by letter case (and whose username and product still
resolve) fails with the duplicate-name `Conflict` rejection (HTTP 400,
"already exists"), and the table is left unchanged — no second row. -/
theorem C7_case_insensitive_duplicate_name (db db' : DiscountDB)
    (d1 d2 : DiscountPayload) (now1 now2 : Nat) (row : DiscountRow)
    (h1 : create_discount db d1 now1 = (.ok row, db'))
    (hci : sqlCI d1.DiscountName d2.DiscountName = true)
    (huser : ∃ uid, get_user_id_from_username db' d2.Username = .ok uid)
    (hprod : ∃ p, db'.products.find? (fun p => sqlCI p.productName d2.ProductName) = some p) :
    create_discount db' d2 now2 =
      (.error (.duplicateName d2.DiscountName), db') ∧
    (create_discount db' d2 now2).2.discounts = db'.discounts ∧
    (DiscountError.duplicateName d2.DiscountName).statusCode = 400 := by
  obtain ⟨uid2, huser⟩ := huser
  obtain ⟨p2, hprod⟩ := hprod
  -- invert the successful first creation: the inserted row carries d1's name
  have hrow : row.discountName = d1.DiscountName ∧
      db'.discounts = db.discounts ++ [row] := by
    unfold create_discount at h1
    split at h1
    · simp at h1
    · split at h1
      · simp at h1
      · split at h1
        · simp at h1
        · split at h1
          · simp at h1
          · simp only [Prod.mk.injEq, Except.ok.injEq] at h1
            obtain ⟨hr, hdb⟩ := h1
            subst hr
            rw [← hdb]
            exact ⟨rfl, rfl⟩
  -- the second creation hits the duplicate check
  have hdup2 : (db'.discounts.any fun r => sqlCI r.discountName d2.DiscountName) = true := by
    rw [hrow.2, List.any_append]
    have hx : sqlCI row.discountName d2.DiscountName = true := by
      rw [hrow.1]; exact hci
    simp [hx]
  have hmain : create_discount db' d2 now2 =
      (.error (.duplicateName d2.DiscountName), db') := by
    simp [create_discount, huser, hprod, hdup2]
  exact ⟨hmain, by rw [hmain], rfl⟩

/-- Witness for C7: "Summer Promo" then "SUMMER PROMO" on a concrete state. -/
theorem C7_case_insensitive_duplicate_name_witness :
    create_discount
      { users := [(1, "alice")], products := [{ productID := 4, productName := "Cake" }]
        discounts := [{ discountID := 9, discountName := "Summer Promo", productID := 4,
                        percentageValue := 10, minimumSpend := none, validFrom := 0,
                        validTo := 10, userID := 1, status := "active", createdAt := 3 }]
        nextDiscountID := 10 }
      { DiscountName := "SUMMER PROMO", ProductName := "cake", PercentageValue := 20,
        MinimumSpend := none, ValidFrom := 0, ValidTo := 10, Username := "ALICE",
        Status := "active" } 5 =
      (.error (.duplicateName "SUMMER PROMO"),
       { users := [(1, "alice")], products := [{ productID := 4, productName := "Cake" }]
         discounts := [{ discountID := 9, discountName := "Summer Promo", productID := 4,
                         percentageValue := 10, minimumSpend := none, validFrom := 0,
                         validTo := 10, userID := 1, status := "active", createdAt := 3 }]
         nextDiscountID := 10 }) := by
  exact (C7_case_insensitive_duplicate_name
    { users := [(1, "alice")], products := [{ productID := 4, productName := "Cake" }]
      discounts := [], nextDiscountID := 9 }
    { users := [(1, "alice")], products := [{ productID := 4, productName := "Cake" }]
      discounts := [{ discountID := 9, discountName := "Summer Promo", productID := 4,
                      percentageValue := 10, minimumSpend := none, validFrom := 0,
                      validTo := 10, userID := 1, status := "active", createdAt := 3 }]
      nextDiscountID := 10 }
    { DiscountName := "Summer Promo", ProductName := "Cake", PercentageValue := 10,
      MinimumSpend := none, ValidFrom := 0, ValidTo := 10, Username := "alice",
      Status := "active" }
    { DiscountName := "SUMMER PROMO", ProductName := "cake", PercentageValue := 20,
      MinimumSpend := none, ValidFrom := 0, ValidTo := 10, Username := "ALICE",
      Status := "active" } 3 5
    { discountID := 9, discountName := "Summer Promo", productID := 4,
      percentageValue := 10, minimumSpend := none, validFrom := 0,
      validTo := 10, userID := 1, status := "active", createdAt := 3 }
    (by decide) (by decide) ⟨1, by decide⟩
    ⟨{ productID := 4, productName := "Cake" }, by decide⟩).1

/-! ## Claim C8 -/

/-- C8: for every discount create or update request with
`ValidFrom >= ValidTo` (boundary `ValidFrom == ValidTo` included), the
operation fails and the `Discounts` table is unchanged; when the reference
lookups and the duplicate-name pre-checks pass, the failure is precisely the
`ValidationError` rejection `badDateRange` (HTTP 400, "ValidFrom date must be
before ValidTo date."). -/
theorem C8_date_range_validation (db : DiscountDB) (d : DiscountPayload)
    (now discount_id : Nat) (hdate : d.ValidTo ≤ d.ValidFrom) :
    (isOk (create_discount db d now).1 = false ∧
      (create_discount db d now).2 = db) ∧
    (isOk (update_discount db discount_id d).1 = false ∧
      (update_discount db discount_id d).2 = db) ∧
    (∀ uid prod,
      get_user_id_from_username db d.Username = .ok uid →
      db.products.find? (fun p => sqlCI p.productName d.ProductName) = some prod →
      (db.discounts.any fun r => sqlCI r.discountName d.DiscountName) = false →
      create_discount db d now = (.error .badDateRange, db)) ∧
    (∀ uid prod,
      get_user_id_from_username db d.Username = .ok uid →
      (db.discounts.any fun r => r.discountID == discount_id) = true →
      db.products.find? (fun p => sqlCI p.productName d.ProductName) = some prod →
      (db.discounts.any fun r =>
        sqlCI r.discountName d.DiscountName && r.discountID != discount_id) = false →
      update_discount db discount_id d = (.error .badDateRange, db)) ∧
    DiscountError.badDateRange.statusCode = 400 := by
  refine ⟨?_, ?_, ?_, ?_, rfl⟩
  · cases hu : get_user_id_from_username db d.Username with
    | error e => simp [create_discount, hu, isOk]
    | ok uid =>
      cases hp : db.products.find? (fun p => sqlCI p.productName d.ProductName) with
      | none => simp [create_discount, hu, hp, isOk]
      | some prod =>
        by_cases hdup : (db.discounts.any fun r => sqlCI r.discountName d.DiscountName) = true
        · simp [create_discount, hu, hp, hdup, isOk]
        · simp [create_discount, hu, hp, hdup, hdate, isOk]
  · cases hu : get_user_id_from_username db d.Username with
    | error e => simp [update_discount, hu, isOk]
    | ok uid =>
      by_cases hex : (db.discounts.any fun r => r.discountID == discount_id) = true
      · cases hp : db.products.find? (fun p => sqlCI p.productName d.ProductName) with
        | none => simp [update_discount, hu, hex, hp, isOk]
        | some prod =>
          by_cases hdup : (db.discounts.any fun r =>
              sqlCI r.discountName d.DiscountName && r.discountID != discount_id) = true
          · simp [update_discount, hu, hex, hp, hdup, isOk]
          · simp [update_discount, hu, hex, hp, hdup, hdate, isOk]
      · simp [update_discount, hu, hex, isOk]
  · intro uid prod hu hp hdup
    simp [create_discount, hu, hp, hdup, hdate]
  · intro uid prod hu hex hp hdup
    simp [update_discount, hu, hex, hp, hdup, hdate]

/-- Witness for C8 at the boundary `ValidFrom == ValidTo` on a concrete
state. -/
theorem C8_date_range_validation_witness :
    create_discount
      { users := [(1, "alice")], products := [{ productID := 4, productName := "Cake" }]
        discounts := [], nextDiscountID := 1 }
      { DiscountName := "Noon Deal", ProductName := "Cake", PercentageValue := 5,
        MinimumSpend := none, ValidFrom := 12, ValidTo := 12, Username := "alice",
        Status := "active" } 0 =
      (.error .badDateRange,
       { users := [(1, "alice")], products := [{ productID := 4, productName := "Cake" }]
         discounts := [], nextDiscountID := 1 }) := by
  exact (C8_date_range_validation
    { users := [(1, "alice")], products := [{ productID := 4, productName := "Cake" }]
      discounts := [], nextDiscountID := 1 }
    { DiscountName := "Noon Deal", ProductName := "Cake", PercentageValue := 5,
      MinimumSpend := none, ValidFrom := 12, ValidTo := 12, Username := "alice",
      Status := "active" } 0 0 (by decide)).2.2.1 1
    { productID := 4, productName := "Cake" } (by decide) (by decide) (by decide)

/-! ## DIscountServices/routers/employee_accounts.py -/

/-- Python `str.isdigit` on one character: true for characters whose Unicode
Numeric_Type is Digit or Decimal. Besides the ASCII digits this includes,
among others, the superscript digits U+00B9, U+00B2, U+00B3 and the
Arabic-Indic digits U+0660..U+0669; the table here lists the ranges this
development evaluates (Python's full table is the Unicode character
database, a strict superset of the ASCII digits). -/
def pyIsDigitChar (c : Char) : Bool :=
  (48 ≤ c.toNat && c.toNat ≤ 57) ||
  c.toNat == 178 || c.toNat == 179 || c.toNat == 185 ||
  (1632 ≤ c.toNat && c.toNat ≤ 1641)

/-- Python `str.isdigit`: nonempty and every character a digit. -/
def pyIsDigit (s : String) : Bool :=
  !s.toList.isEmpty && s.toList.all pyIsDigitChar

/-- Whitespace for Python `str.strip` (space and the ASCII control
whitespace). -/
def pyIsSpace (c : Char) : Bool :=
  c.toNat == 32 || (9 ≤ c.toNat && c.toNat ≤ 13)

/-- Python `str.strip()`. -/
def pyStrip (s : String) : String :=
  ⟨((s.toList.dropWhile pyIsSpace).reverse.dropWhile pyIsSpace).reverse⟩

/-- The `HTTPException`s employee_accounts.py raises in create/update, one
constructor per check (message texts abstracted; every constructor is HTTP
400 except `userNotFound`, 404). In the spec's taxonomy `passcodeFormat` is
the `ValidationError` condition for a bad cashier passcode and
`passcodeTaken` the `Conflict` condition. -/
inductive EmpError where
  | invalidRole
  | passwordRequired
  | fullNameTaken
  | emailTaken
  | passcodeFormat
  | passcodeTaken
  | usernameRequired
  | usernameReserved
  | usernameTaken
  | userNotFound
  | invalidNewRole
  | passcodeRequiredForCashier
  | passwordRequiredFromCashier
deriving DecidableEq, Repr

/-- HTTP status of each employee_accounts.py error. -/
def EmpError.statusCode : EmpError → Nat
  | .userNotFound => 404
  | _ => 400

/-- The duplicate-passcode probe of employee_accounts.py: does any active
cashier row (optionally excluding one UserID) have a stored hash that
`bcrypt.checkpw` matches against the candidate passcode? Rows with a NULL or
empty stored hash are skipped (`if row[0] and ...`). -/
def cashier_passcode_collision (o : PwOracle) (db : List UserRow) (pw : String)
    (excludeId : Option Nat) : Bool :=
  db.any (fun r => r.userRole == "cashier" && r.isDisabled == 0 &&
    (match excludeId with | some i => r.userID != i | none => true) &&
    (match r.userPassword with
     | some h => h != "" && o.checkpw pw h
     | none => false))

/-- Multipart form of `POST /employee-accounts/create` (the uploaded image is
modelled by its client filename). -/
structure CreateUserForm where
  fullName : String
  username : Option String := none
  password : String
  userRole : String
  emailAddress : String
  phoneNumber : Option String := none
  hireDate : Option Nat := none
  uploadImage : Option String := none
deriving DecidableEq, Repr

/-- employee_accounts.py `create_user` (post-authorization): role whitelist,
non-blank password, active full-name and email uniqueness; for cashiers a
6-digit `isdigit` passcode stored under the sentinel username "cashier" with
a pairwise bcrypt collision check against every active cashier; for
admin/manager a non-blank, non-reserved, unique username. `nextUserID` is the
identity value the insert takes, `nowTs` is `datetime.now().timestamp()`.
Errors leave the table unchanged. -/
def create_user (o : PwOracle) (db : List UserRow) (f : CreateUserForm)
    (nowTs nextUserID : Nat) : Except EmpError Unit × List UserRow :=
  if ¬ (["admin", "manager", "cashier"].contains f.userRole) then
    (.error .invalidRole, db)
  else if (pyStrip f.password == "") then
    (.error .passwordRequired, db)
  else if db.any (fun r => r.fullName == f.fullName && r.isDisabled == 0) then
    (.error .fullNameTaken, db)
  else if db.any (fun r => r.emailAddress == f.emailAddress && r.isDisabled == 0) then
    (.error .emailTaken, db)
  else
    let insert : String → Except EmpError Unit × List UserRow := fun uname =>
      (.ok (),
       db ++ [{ userID := nextUserID, fullName := f.fullName,
                username := some uname,
                userPassword := some (o.hashpw f.password),
                userRole := f.userRole, isDisabled := 0,
                emailAddress := f.emailAddress,
                uploadImage := f.uploadImage.map (fun n => toString nowTs ++ "_" ++ n),
                phoneNumber := f.phoneNumber, hireDate := f.hireDate,
                createdAt := nowTs }])
    if f.userRole == "cashier" then
      if ¬ (pyIsDigit f.password && f.password.length == 6) then
        (.error .passcodeFormat, db)
      else if cashier_passcode_collision o db f.password none then
        (.error .passcodeTaken, db)
      else insert "cashier"
    else
      match f.username with
      | none => (.error .usernameRequired, db)
      | some un =>
        if pyStrip un == "" then (.error .usernameRequired, db)
        else if pyLower un == "cashier" then (.error .usernameReserved, db)
        else if db.any (fun r => r.username == some un &&
            ["admin", "manager"].contains r.userRole && r.isDisabled == 0) then
          (.error .usernameTaken, db)
        else insert un

/-- Multipart form of `PUT /employee-accounts/update/:id`: every field
optional. -/
structure UpdateUserForm where
  fullName : Option String := none
  username : Option String := none
  password : Option String := none
  userRole : Option String := none
  emailAddress : Option String := none
  phoneNumber : Option String := none
  hireDate : Option Nat := none
  uploadImage : Option String := none
deriving DecidableEq, Repr

/-- The `updates` list update_user accumulates: `none` means the column is
untouched; `phoneNumber` can also be SET to NULL, hence its nested Option. -/
structure RowPatch where
  fullName : Option String := none
  emailAddress : Option String := none
  userRole : Option String := none
  username : Option String := none
  userPassword : Option String := none
  phoneNumber : Option (Option String) := none
  hireDate : Option Nat := none
  uploadImage : Option String := none
deriving DecidableEq, Repr

/-- Is the accumulated `updates` list empty? -/
def RowPatch.isEmptyPatch (p : RowPatch) : Bool :=
  p.fullName.isNone && p.emailAddress.isNone && p.userRole.isNone &&
  p.username.isNone && p.userPassword.isNone && p.phoneNumber.isNone &&
  p.hireDate.isNone && p.uploadImage.isNone

/-- Apply the accumulated `UPDATE Users SET ...` column list to a row. -/
def applyPatch (p : RowPatch) (r : UserRow) : UserRow :=
  { r with
    fullName := p.fullName.getD r.fullName
    emailAddress := p.emailAddress.getD r.emailAddress
    userRole := p.userRole.getD r.userRole
    username := match p.username with | some u => some u | none => r.username
    userPassword := match p.userPassword with | some h => some h | none => r.userPassword
    phoneNumber := p.phoneNumber.getD r.phoneNumber
    hireDate := match p.hireDate with | some d => some d | none => r.hireDate
    uploadImage := match p.uploadImage with | some i => some i | none => r.uploadImage }

/-- The `elif username and username != current_username_db and ...` branch of
update_user: admin/manager username change without a role change. -/
def update_username_only (db : List UserRow) (user_id : Nat) (cur : UserRow)
    (f : UpdateUserForm) (p : RowPatch) : Except EmpError RowPatch :=
  match f.username with
  | none => pure p
  | some un =>
    if un != "" && some un != cur.username &&
        ["admin", "manager"].contains cur.userRole then
      if pyStrip un == "" then throw .usernameRequired
      else if pyLower un == "cashier" then throw .usernameReserved
      else if db.any (fun r => r.username == some un && r.userID != user_id &&
          ["admin", "manager"].contains r.userRole && r.isDisabled == 0) then
        throw .usernameTaken
      else pure { p with username := some un }
    else pure p

/-- employee_accounts.py `update_user` (post-authorization): find the active
row, then accumulate the `updates` list exactly in source order — fullName,
email (with active-collision check), the role/username change logic, the
password section (cashier format and pairwise collision checks against the
OTHER active cashiers), phone, hire date, image — and apply it to the row;
"No fields to update" returns success without a write. Errors leave the table
unchanged; physical image files are not modelled here. -/
def update_user (o : PwOracle) (db : List UserRow) (user_id : Nat)
    (f : UpdateUserForm) (nowTs : Nat) : Except EmpError Unit × List UserRow :=
  match db.find? (fun r => r.userID == user_id && r.isDisabled == 0) with
  | none => (.error .userNotFound, db)
  | some cur =>
    let patchE : Except EmpError RowPatch := do
      let p : RowPatch := {}
      let p := if strTruthy f.fullName then { p with fullName := f.fullName } else p
      let p ←
        (if strTruthy f.emailAddress then
          if db.any (fun r => f.emailAddress == some r.emailAddress &&
              r.userID != user_id && r.isDisabled == 0) then
            throw EmpError.emailTaken
          else pure { p with emailAddress := f.emailAddress }
        else pure p)
      let pe ←
        (match f.userRole with
         | some nr =>
           if nr != "" && nr != cur.userRole then
             if ¬ (["admin", "manager", "cashier"].contains nr) then
               throw EmpError.invalidNewRole
             else
               let p1 := { p with userRole := some nr }
               if nr == "cashier" then
                 let p2 := if cur.username != some "cashier" then
                     { p1 with username := some "cashier" } else p1
                 if ¬ strTruthy f.password then throw EmpError.passcodeRequiredForCashier
                 else pure (p2, nr)
               else
                 match f.username with
                 | none => throw EmpError.usernameRequired
                 | some un =>
                   if pyStrip un == "" then throw EmpError.usernameRequired
                   else if pyLower un == "cashier" then throw EmpError.usernameReserved
                   else if db.any (fun r => r.username == some un && r.userID != user_id &&
                       ["admin", "manager"].contains r.userRole && r.isDisabled == 0) then
                     throw EmpError.usernameTaken
                   else
                     let p2 := { p1 with username := some un }
                     if cur.userRole == "cashier" && ¬ strTruthy f.password then
                       throw EmpError.passwordRequiredFromCashier
                     else pure (p2, nr)
           else
             (do pure (← update_username_only db user_id cur f p, cur.userRole))
         | none =>
             (do pure (← update_username_only db user_id cur f p, cur.userRole)))
      let p := pe.1
      let effective_role := pe.2
      let p ←
        (match f.password with
         | some pw =>
           if pw != "" && pyStrip pw != "" then
             if effective_role == "cashier" then
               if ¬ (pyIsDigit pw && pw.length == 6) then
                 throw EmpError.passcodeFormat
               else if cashier_passcode_collision o db pw (some user_id) then
                 throw EmpError.passcodeTaken
               else pure { p with userPassword := some (o.hashpw pw) }
             else pure { p with userPassword := some (o.hashpw pw) }
           else pure p
         | none => pure p)
      let p :=
        match f.phoneNumber with
        | some ph => { p with phoneNumber := some (if pyStrip ph != "" then some ph else none) }
        | none => p
      let p := match f.hireDate with
        | some d => { p with hireDate := some d }
        | none => p
      let p := match f.uploadImage with
        | some n => { p with uploadImage := some (toString nowTs ++ "_" ++ n) }
        | none => p
      pure p
    match patchE with
    | .error e => (.error e, db)
    | .ok p =>
      if p.isEmptyPatch then (.ok (), db)
      else (.ok (),
        db.map (fun r => if r.userID == user_id && r.isDisabled == 0
                         then applyPatch p r else r))

/-- Bind on a successful `Except` computation reduces to the continuation. -/
theorem exceptBind_ok {ε α β : Type} (a : α) (f : α → Except ε β) :
    (Except.ok a >>= f : Except ε β) = f a := rfl

/-- Bind on a failed `Except` computation keeps the error. -/
theorem exceptBind_error {ε α β : Type} (e : ε) (f : α → Except ε β) :
    (Except.error e >>= f : Except ε β) = Except.error e := rfl

/-! ## Claim C6 -/

/-- C6 counterexample: Python `str.isdigit` accepts non-ASCII digit
characters, so the passcode "²²²²²²" (six U+00B2 SUPERSCRIPT TWO characters)
is accepted by employee-account creation although it is not a string of six
ASCII digits — the claim's "accepted only if it is exactly 6 ASCII digits"
fails at this input. -/
theorem C6_cashier_passcode_counterexample :
    isOk (create_user toyOracle []
      { fullName := "Cashier One", username := none, password := "²²²²²²",
        userRole := "cashier", emailAddress := "c1@x" } 0 1).1 = true ∧
    ("²²²²²²".toList.all (fun c => 48 ≤ c.toNat && c.toNat ≤ 57)) = false := by
  exact ⟨by decide, by decide⟩

/-- C6 amended: a cashier passcode is accepted only if it has exactly 6
characters, each a digit for Python's `str.isdigit` (all ASCII digits
qualify, but so do other Unicode digit characters); any 5- or 7-character
string, or any string with a character failing that test, is rejected with
the `ValidationError` (400) `passcodeFormat`, and a passcode whose bcrypt
check matches any other active cashier's stored hash is rejected with the
`Conflict` (400) `passcodeTaken` — on both the create and the update path,
with the table unchanged. -/
theorem C6_cashier_passcode_rules (o : PwOracle) (db : List UserRow)
    (f : CreateUserForm) (nowTs nextUserID user_id : Nat) (cur : UserRow)
    (pw : String)
    (hrole : f.userRole = "cashier")
    (hblank : (pyStrip f.password == "") = false)
    (hfn : (db.any fun r => r.fullName == f.fullName && r.isDisabled == 0) = false)
    (hem : (db.any fun r => r.emailAddress == f.emailAddress && r.isDisabled == 0) = false) :
    (∀ s : String, s.length ≠ 6 → (pyIsDigit s && s.length == 6) = false) ∧
    (∀ s : String, ∀ c ∈ s.toList, pyIsDigitChar c = false →
      (pyIsDigit s && s.length == 6) = false) ∧
    ((pyIsDigit f.password && f.password.length == 6) = false →
      create_user o db f nowTs nextUserID = (.error .passcodeFormat, db)) ∧
    ((pyIsDigit f.password && f.password.length == 6) = true →
      cashier_passcode_collision o db f.password none = true →
      create_user o db f nowTs nextUserID = (.error .passcodeTaken, db)) ∧
    ((pyIsDigit f.password && f.password.length == 6) = true →
      cashier_passcode_collision o db f.password none = false →
      isOk (create_user o db f nowTs nextUserID).1 = true) ∧
    (db.find? (fun r => r.userID == user_id && r.isDisabled == 0) = some cur →
      cur.userRole = "cashier" → (pw == "") = false → (pyStrip pw == "") = false →
      (pyIsDigit pw && pw.length == 6) = false →
      update_user o db user_id { password := some pw } nowTs =
        (.error .passcodeFormat, db)) ∧
    (db.find? (fun r => r.userID == user_id && r.isDisabled == 0) = some cur →
      cur.userRole = "cashier" → (pw == "") = false → (pyStrip pw == "") = false →
      (pyIsDigit pw && pw.length == 6) = true →
      cashier_passcode_collision o db pw (some user_id) = true →
      update_user o db user_id { password := some pw } nowTs =
        (.error .passcodeTaken, db)) ∧
    EmpError.passcodeFormat.statusCode = 400 ∧
    EmpError.passcodeTaken.statusCode = 400 := by
  refine ⟨?_, ?_, ?_, ?_, ?_, ?_, ?_, rfl, rfl⟩
  · intro s hs
    have hlen : (s.length == 6) = false := by
      simp [hs]
    simp [hlen]
  · intro s c hc hcd
    have hdig : pyIsDigit s = false := by
      unfold pyIsDigit
      rcases List.append_of_mem hc with ⟨l1, l2, hsplit⟩
      rw [hsplit]
      simp [hcd]
    simp [hdig]
  · intro hfmt
    simp [create_user, hrole, hblank, hfn, hem, hfmt]
  · intro hfmt hcol
    simp [create_user, hrole, hblank, hfn, hem, hfmt, hcol]
  · intro hfmt hcol
    simp [create_user, hrole, hblank, hfn, hem, hfmt, hcol, isOk]
  · intro hfind hcurrole hpwne hpwstrip hfmt
    have h1 : pw ≠ "" := by simpa using hpwne
    have h2 : pyStrip pw ≠ "" := by simpa using hpwstrip
    simp [update_user, hfind, update_username_only, strTruthy,
      exceptBind_ok, exceptBind_error, hcurrole, h1, h2, hfmt]
  · intro hfind hcurrole hpwne hpwstrip hfmt hcol
    have h1 : pw ≠ "" := by simpa using hpwne
    have h2 : pyStrip pw ≠ "" := by simpa using hpwstrip
    simp [update_user, hfind, update_username_only, strTruthy,
      exceptBind_ok, exceptBind_error, hcurrole, h1, h2, hfmt, hcol]

/-- Witness for C6's amended statement: a 7-character all-digit passcode is
rejected on create, and a colliding 6-digit passcode is rejected on update,
both at concrete states. -/
theorem C6_cashier_passcode_rules_witness :
    create_user toyOracle []
      { fullName := "Cashier One", username := none, password := "1234567",
        userRole := "cashier", emailAddress := "c1@x" } 0 1 =
      (.error .passcodeFormat, []) ∧
    update_user toyOracle
      [{ userID := 2, fullName := "Cashier Two", username := some "cashier",
         userPassword := some "H111111", userRole := "cashier", isDisabled := 0,
         emailAddress := "c2@x" },
       { userID := 3, fullName := "Cashier Three", username := some "cashier",
         userPassword := some "H654321", userRole := "cashier", isDisabled := 0,
         emailAddress := "c3@x" }] 2 { password := some "654321" } 0 =
      (.error .passcodeTaken,
       [{ userID := 2, fullName := "Cashier Two", username := some "cashier",
          userPassword := some "H111111", userRole := "cashier", isDisabled := 0,
          emailAddress := "c2@x" },
        { userID := 3, fullName := "Cashier Three", username := some "cashier",
          userPassword := some "H654321", userRole := "cashier", isDisabled := 0,
          emailAddress := "c3@x" }]) := by
  constructor
  · exact (C6_cashier_passcode_rules toyOracle []
      { fullName := "Cashier One", username := none, password := "1234567",
        userRole := "cashier", emailAddress := "c1@x" } 0 1 0
      { userID := 0, fullName := "", username := none, userPassword := none,
        userRole := "cashier", isDisabled := 0, emailAddress := "" } "1"
      rfl (by decide) (by decide) (by decide)).2.2.1 (by decide)
  · exact (C6_cashier_passcode_rules toyOracle
      [{ userID := 2, fullName := "Cashier Two", username := some "cashier",
         userPassword := some "H111111", userRole := "cashier", isDisabled := 0,
         emailAddress := "c2@x" },
       { userID := 3, fullName := "Cashier Three", username := some "cashier",
         userPassword := some "H654321", userRole := "cashier", isDisabled := 0,
         emailAddress := "c3@x" }]
      { fullName := "x", username := none, password := "111111",
        userRole := "cashier", emailAddress := "x@x" } 0 9 2
      { userID := 2, fullName := "Cashier Two", username := some "cashier",
        userPassword := some "H111111", userRole := "cashier", isDisabled := 0,
        emailAddress := "c2@x" } "654321"
      rfl (by decide) (by decide) (by decide)).2.2.2.2.2.2.1
      (by decide) rfl (by decide) (by decide) (by decide) (by decide)

/-! ## ProductServices/routers/products.py -/

/-- Is the first list a prefix of the second? -/
def listPrefixOf : List Char → List Char → Bool
  | [], _ => true
  | _ :: _, [] => false
  | a :: as, b :: bs => a == b && listPrefixOf as bs

/-- Python `str.startswith` / the string prefix tests the helper performs. -/
def strStartsWith (s pre : String) : Bool := listPrefixOf pre.toList s.toList

/-- Python `needle in hay` on strings. -/
def strContainsSub (hay needle : String) : Bool :=
  (List.range (hay.toList.length + 1)).any
    (fun i => listPrefixOf needle.toList (hay.toList.drop i))

/-- pathlib `Path(s).name`: the component after the last '/'. -/
def pathName (s : String) : String :=
  ⟨(s.toList.reverse.takeWhile (fun c => c != '/')).reverse⟩

/-- pathlib `Path(name).suffix`: the substring from the last '.' (dot
included) when that dot is neither the first nor the last character of the
name; `""` otherwise. -/
def pathSuffix (name : String) : String :=
  let cs := name.toList
  match cs.reverse.findIdx? (fun c => c == '.') with
  | none => ""
  | some k =>
    if 0 < cs.length - 1 - k ∧ 0 < k then ⟨(cs.reverse.take (k + 1)).reverse⟩
    else ""

/-- Outcome of an `httpx` GET whose URL passes the scheme check: a response
(status code, content-type header, abstract body bytes) or a connection-level
`httpx.RequestError`. -/
inductive FetchOutcome where
  | response (statusCode : Nat) (contentType : String) (content : Nat)
  | requestError (msg : String)
deriving DecidableEq, Repr

/-- Environment of one image-helper call: the network, the `uuid4` filename
stem this call generates, and whether the filesystem write succeeds. -/
structure ImgEnv where
  fetch : String → FetchOutcome
  freshName : String
  writeOk : Bool := true

/-- `httpx` GET: a URL without an http(s) scheme raises `UnsupportedProtocol`
— a `RequestError` — before any network I/O; otherwise the network decides. -/
def httpxGet (env : ImgEnv) (url : String) : FetchOutcome :=
  if strStartsWith url "http://" || strStartsWith url "https://" then env.fetch url
  else .requestError "Request URL is missing an http or https protocol"

/-- Step 1 of `_download_and_save_image_from_is` (the old-image deletion): the
old physical file is removed only when there is no new URL or the new URL
differs textually from the stored path; the helper early-returns `none` here
exactly when there is no new URL. Returns (early-return?, filesystem after). -/
def image_delete_step (image_url_from_is current_pos_db_image_path : Option String)
    (fs : List String) : Bool × List String :=
  if strTruthy current_pos_db_image_path then
    let old_filename := pathName (current_pos_db_image_path.getD "")
    if !strTruthy image_url_from_is ||
        (strTruthy image_url_from_is &&
          current_pos_db_image_path != image_url_from_is) then
      (!strTruthy image_url_from_is, fs.erase old_filename)
    else (false, fs)
  else (false, fs)

/-- products.py `_download_and_save_image_from_is` over an explicit local
filesystem (the filenames in the physical image directory) and one call's
environment: run the deletion step, return `none` when no truthy URL was
supplied, otherwise fetch the URL — every failure (connection error, non-2xx
status via `raise_for_status`, non-`image/*` content type, IO error while
writing) is caught and degrades to `none` — derive an extension from the URL
or the content type (default ".jpg"), write the bytes under a fresh unique
filename and return the new `/pos_product_images/...` DB path segment. -/
def download_and_save_image_from_is (env : ImgEnv)
    (image_url_from_is current_pos_db_image_path : Option String)
    (fs : List String) : Option String × List String :=
  let step1 := image_delete_step image_url_from_is current_pos_db_image_path fs
  let fs1 := step1.2
  if step1.1 then (none, fs1)
  else if !strTruthy image_url_from_is then (none, fs1)
  else
    let url := image_url_from_is.getD ""
    match httpxGet env url with
    | .requestError _ => (none, fs1)
    | .response st ct _ =>
      if !is2xx st then (none, fs1)
      else
        let content_type := pyLower ct
        if !strStartsWith content_type "image/" then (none, fs1)
        else
          let ext0 := pyLower (pathSuffix (pathName url))
          let ext :=
            if ext0 == "" || ext0 == "." then
              if strContainsSub content_type "jpeg" ||
                  strContainsSub content_type "jpg" then ".jpg"
              else if strContainsSub content_type "png" then ".png"
              else ".jpg"
            else ext0
          let unique_filename := env.freshName ++ ext
          if env.writeOk then
            (some ("/pos_product_images/" ++ unique_filename), unique_filename :: fs1)
          else (none, fs1)

/-- An environment whose network refuses every connection. -/
def constFailEnv : ImgEnv :=
  { fetch := fun _ => .requestError "refused", freshName := "u0" }

/-- Files never appear out of nowhere in the deletion step. -/
theorem image_delete_step_subset (u p : Option String) (fs : List String) :
    ∀ f ∈ (image_delete_step u p fs).2, f ∈ fs := by
  intro f hf
  unfold image_delete_step at hf
  split at hf
  · split at hf
    · exact List.mem_of_mem_erase hf
    · exact hf
  · exact hf

/-! ## Claim C4 -/

/-- C4 counterexample: with the stored image path round-tripped back as the
source URL (verbatim equal, file present), the helper returns `none` but the
old physical file survives — the claim's assertion that the same deletion as
in the no-source case happens is false here, while the no-source call on the
same state does delete the file. -/
theorem C4_verbatim_equal_counterexample :
    download_and_save_image_from_is constFailEnv
      (some "/pos_product_images/old.jpg") (some "/pos_product_images/old.jpg")
      ["old.jpg"] = (none, ["old.jpg"]) ∧
    "old.jpg" ∈ (download_and_save_image_from_is constFailEnv
      (some "/pos_product_images/old.jpg") (some "/pos_product_images/old.jpg")
      ["old.jpg"]).2 ∧
    download_and_save_image_from_is constFailEnv
      none (some "/pos_product_images/old.jpg") ["old.jpg"] = (none, []) := by
  exact ⟨by decide, by decide, by decide⟩

/-- C4 amended: when the supplied source URL equals the previously stored
local path verbatim (a non-empty path without an http(s) scheme), the helper
skips the deletion branch, the download attempt fails on the scheme check,
and it returns `none` with the filesystem unchanged: the stored image becomes
null but the previously stored physical file is NOT deleted. -/
theorem C4_verbatim_equal_keeps_file (env : ImgEnv) (fs : List String) (p : String)
    (hne : p ≠ "")
    (h1 : strStartsWith p "http://" = false)
    (h2 : strStartsWith p "https://" = false) :
    download_and_save_image_from_is env (some p) (some p) fs = (none, fs) := by
  simp [download_and_save_image_from_is, image_delete_step, httpxGet,
    strTruthy, hne, h1, h2]

/-- Witness for C4's amended statement at a concrete stored path. -/
theorem C4_verbatim_equal_keeps_file_witness :
    download_and_save_image_from_is constFailEnv
      (some "/pos_product_images/a.png") (some "/pos_product_images/a.png")
      ["a.png", "b.jpg"] = (none, ["a.png", "b.jpg"]) := by
  exact C4_verbatim_equal_keeps_file constFailEnv ["a.png", "b.jpg"]
    "/pos_product_images/a.png" (by decide) (by decide) (by decide)

/-! ## Claim C5 -/

/-- C5: whatever source URL is supplied, the helper never propagates a
network, HTTP or filesystem failure: when the fetch fails (connection error
or non-2xx status), or the content type does not start with `image/`, or the
write fails, it returns `none` and adds no file to the local content
directory (the result filesystem holds only files that were already there). -/
theorem C5_helper_never_raises (env : ImgEnv) (url : String)
    (prev : Option String) (fs : List String)
    (hfail :
      (∃ m, httpxGet env url = .requestError m) ∨
      (∃ st ct c, httpxGet env url = .response st ct c ∧
        (is2xx st = false ∨ strStartsWith (pyLower ct) "image/" = false)) ∨
      env.writeOk = false) :
    (download_and_save_image_from_is env (some url) prev fs).1 = none ∧
    ∀ f ∈ (download_and_save_image_from_is env (some url) prev fs).2, f ∈ fs := by
  rcases hstep : image_delete_step (some url) prev fs with ⟨b, fs1⟩
  have hsub : ∀ f ∈ fs1, f ∈ fs := by
    have h := image_delete_step_subset (some url) prev fs
    rw [hstep] at h
    exact h
  cases b with
  | true =>
    have heval : download_and_save_image_from_is env (some url) prev fs = (none, fs1) := by
      simp [download_and_save_image_from_is, hstep]
    rw [heval]
    exact ⟨rfl, hsub⟩
  | false =>
    by_cases hurl : strTruthy (some url) = true
    · cases hfetch : httpxGet env url with
      | requestError m =>
        have heval : download_and_save_image_from_is env (some url) prev fs = (none, fs1) := by
          simp [download_and_save_image_from_is, hstep, hurl, hfetch]
        rw [heval]
        exact ⟨rfl, hsub⟩
      | response st ct c =>
        by_cases h2xx : is2xx st = true
        · by_cases himg : strStartsWith (pyLower ct) "image/" = true
          · -- fetch succeeded with an image content type: hfail forces a write failure
            have hw : env.writeOk = false := by
              rcases hfail with ⟨m, hm⟩ | ⟨st', ct', c', hr, hbad⟩ | hw
              · rw [hm] at hfetch; cases hfetch
              · rw [hr] at hfetch
                cases hfetch
                rcases hbad with hb | hb
                · rw [hb] at h2xx; cases h2xx
                · rw [hb] at himg; cases himg
              · exact hw
            have heval : download_and_save_image_from_is env (some url) prev fs = (none, fs1) := by
              simp [download_and_save_image_from_is, hstep, hurl, hfetch, h2xx, himg, hw]
            rw [heval]
            exact ⟨rfl, hsub⟩
          · have heval : download_and_save_image_from_is env (some url) prev fs = (none, fs1) := by
              simp [download_and_save_image_from_is, hstep, hurl, hfetch, h2xx, himg]
            rw [heval]
            exact ⟨rfl, hsub⟩
        · have heval : download_and_save_image_from_is env (some url) prev fs = (none, fs1) := by
            simp [download_and_save_image_from_is, hstep, hurl, hfetch, h2xx]
          rw [heval]
          exact ⟨rfl, hsub⟩
    · have heval : download_and_save_image_from_is env (some url) prev fs = (none, fs1) := by
        simp [download_and_save_image_from_is, hstep, hurl]
      rw [heval]
      exact ⟨rfl, hsub⟩

/-- Witness for C5: a `text/html` upstream response yields `none` and no
write. -/
theorem C5_helper_never_raises_witness :
    (download_and_save_image_from_is
      { fetch := fun _ => .response 200 "text/html" 7, freshName := "u1" }
      (some "http://is/img.png") none []).1 = none := by
  exact (C5_helper_never_raises
    { fetch := fun _ => .response 200 "text/html" 7, freshName := "u1" }
    "http://is/img.png" none []
    (Or.inr (Or.inl ⟨200, "text/html", 7, by decide, Or.inr (by decide)⟩))).1

/-! ## POS products: update and size endpoints -/

/-- One row of the POS `Products` table. -/
structure PosProductRow where
  productID : Nat
  productName : String
  productTypeID : Nat
  productCategory : String
  productDescription : Option String
  productPrice : Rat
  productImage : Option String
deriving DecidableEq, Repr

/-- One row of the `Size` table. -/
structure SizeRow where
  sizeID : Nat
  productID : Nat
  sizeName : String
deriving DecidableEq, Repr

/-- The POS product-service state: `ProductType` id/name pairs, `Products`
rows, `Size` rows (in query order) and the next `Size` identity value. -/
structure PosDB where
  productTypes : List (Nat × String)
  products : List PosProductRow
  sizes : List SizeRow
  nextSizeID : Nat
deriving DecidableEq, Repr

/-- JSON body of `PUT /Products/products/:id` (`PosProductUpdate`). -/
structure PosProductUpdatePayload where
  ProductName : String
  ProductTypeName : String
  ProductCategory : String
  ProductDescription : Option String := none
  ProductPrice : Rat
  ProductImage : Option String := none
  ProductSize : Option String := none
deriving DecidableEq, Repr

/-- The `HTTPException`s of the POS product/size handlers this development
needs, one constructor per raise site (`productNotFound` 404, `typeNotFound`
and `nameConflict` and `sizeEmpty` 400, `sizeConflict` 409). -/
inductive PosError where
  | productNotFound (id : Nat)
  | typeNotFound (name : String)
  | nameConflict
  | sizeEmpty
  | sizeConflict
deriving DecidableEq, Repr

/-- products.py `update_product_in_pos` (post-authorization): look up the
product (404), run the image helper against the stored image path, resolve
the product type by name (400), reject a case-insensitive product-name
conflict with another product (400), overwrite the product row, DELETE every
`Size` row of the product, insert the single trimmed `ProductSize` when it is
non-blank, then re-read and return the row. The image helper's filesystem
effects survive the error paths that follow it, as in the source. -/
def update_product_in_pos (env : ImgEnv) (db : PosDB) (fs : List String)
    (product_id : Nat) (p : PosProductUpdatePayload) :
    Except PosError PosProductRow × PosDB × List String :=
  match db.products.find? (fun r => r.productID == product_id) with
  | none => (.error (.productNotFound product_id), db, fs)
  | some cur =>
    let res := download_and_save_image_from_is env p.ProductImage cur.productImage fs
    match db.productTypes.find? (fun t => t.2 == p.ProductTypeName) with
    | none => (.error (.typeNotFound p.ProductTypeName), db, res.2)
    | some t =>
      if db.products.any (fun q => sqlCI q.productName p.ProductName &&
          q.productID != product_id) then
        (.error .nameConflict, db, res.2)
      else
        let products' := db.products.map (fun r =>
          if r.productID == product_id then
            { r with productName := p.ProductName, productTypeID := t.1,
                     productCategory := p.ProductCategory,
                     productDescription := p.ProductDescription,
                     productPrice := p.ProductPrice,
                     productImage := res.1 }
          else r)
        let trimmed := pyStrip (p.ProductSize.getD "")
        let keepSizes := db.sizes.filter (fun s => s.productID != product_id)
        let insertSize := strTruthy p.ProductSize && trimmed != ""
        let sizes' :=
          if insertSize then
            keepSizes ++ [{ sizeID := db.nextSizeID, productID := product_id,
                            sizeName := trimmed }]
          else keepSizes
        let db' := { db with
          products := products'
          sizes := sizes'
          nextSizeID := if insertSize then db.nextSizeID + 1 else db.nextSizeID }
        match db'.products.find? (fun r => r.productID == product_id) with
        | none => (.error (.productNotFound product_id), db', res.2)
        | some updated => (.ok updated, db', res.2)

/-- products.py `add_size_to_pos_product_by_id` (post-authorization): reject a
blank size name (400), require the product (404), reject a case-insensitive
duplicate size of that product (409), insert the trimmed size with the next
identity value. -/
def add_size_to_pos_product_by_id (db : PosDB) (product_id : Nat)
    (sizeName : String) : Except PosError SizeRow × PosDB :=
  let trimmed := pyStrip sizeName
  if trimmed == "" then (.error .sizeEmpty, db)
  else
    match db.products.find? (fun r => r.productID == product_id) with
    | none => (.error (.productNotFound product_id), db)
    | some _ =>
      if db.sizes.any (fun s => s.productID == product_id &&
          sqlCI s.sizeName trimmed) then
        (.error .sizeConflict, db)
      else
        let row : SizeRow := { sizeID := db.nextSizeID, productID := product_id,
                               sizeName := trimmed }
        (.ok row, { db with
          sizes := db.sizes ++ [row]
          nextSizeID := db.nextSizeID + 1 })

/-- Filtering a list first by `≠ pid` and then by `== pid` leaves nothing. -/
theorem filter_ne_then_eq_nil (l : List SizeRow) (pid : Nat) :
    ((l.filter (fun s => s.productID != pid)).filter
      (fun s => s.productID == pid)) = [] := by
  induction l with
  | nil => rfl
  | cons a l ih =>
    by_cases h : (a.productID == pid) = true
    · have h' : (a.productID != pid) = false := by simp [bne, h]
      simp only [List.filter_cons, h']
      exact ih
    · have h' : (a.productID != pid) = true := by simp [bne, h]
      have h'' : (a.productID == pid) = false := by simp_all
      simp only [List.filter_cons, h', if_true, h'']
      simp only [Bool.false_eq_true, if_false]
      exact ih

/-- Filtering by `≠ pid` is idempotent on `Size` rows. -/
theorem filter_ne_idem (l : List SizeRow) (pid : Nat) :
    ((l.filter (fun s => s.productID != pid)).filter
      (fun s => s.productID != pid)) = l.filter (fun s => s.productID != pid) := by
  induction l with
  | nil => rfl
  | cons a l ih =>
    by_cases h : (a.productID != pid) = true
    · simp only [List.filter_cons, h, if_true]
      rw [ih]
    · have h' : (a.productID != pid) = false := by simp_all
      simp only [List.filter_cons, h', Bool.false_eq_true, if_false]
      exact ih

/-! ## Claim C10 -/

/-- C10: a successful product update replaces the product's entire size list —
all its `Size` rows are deleted and afterwards the product has exactly one
size (the request's trimmed `ProductSize`, with the next identity value) when
a non-blank `ProductSize` was supplied and zero sizes otherwise, while other
products' sizes are untouched; sizes added earlier through the size
sub-resource endpoints do not survive. -/
theorem C10_update_replaces_size_list (env : ImgEnv) (db : PosDB)
    (fs : List String) (pid : Nat) (p : PosProductUpdatePayload)
    (row : PosProductRow) (db' : PosDB) (fs' : List String)
    (h : update_product_in_pos env db fs pid p = (.ok row, db', fs')) :
    db'.sizes.filter (fun s => s.productID == pid) =
      (if strTruthy p.ProductSize && pyStrip (p.ProductSize.getD "") != "" then
        [{ sizeID := db.nextSizeID, productID := pid,
           sizeName := pyStrip (p.ProductSize.getD "") }]
       else []) ∧
    db'.sizes.filter (fun s => s.productID != pid) =
      db.sizes.filter (fun s => s.productID != pid) := by
  cases hcur : db.products.find? (fun r => r.productID == pid) with
  | none => simp [update_product_in_pos, hcur] at h
  | some cur =>
    cases htype : db.productTypes.find? (fun t => t.2 == p.ProductTypeName) with
    | none => simp [update_product_in_pos, hcur, htype] at h
    | some t =>
      by_cases hconf : (db.products.any fun q =>
          sqlCI q.productName p.ProductName && q.productID != pid) = true
      · simp [update_product_in_pos, hcur, htype, hconf] at h
      · simp only [update_product_in_pos, hcur, htype] at h
        rw [if_neg (by simp [hconf])] at h
        split at h
        · simp at h
        · simp only [Prod.mk.injEq, Except.ok.injEq] at h
          obtain ⟨-, hdb, -⟩ := h
          subst hdb
          by_cases hins : (strTruthy p.ProductSize &&
              pyStrip (p.ProductSize.getD "") != "") = true
          · constructor
            · simp only [hins, if_true]
              rw [List.filter_append, filter_ne_then_eq_nil]
              simp [List.filter]
            · simp only [hins, if_true]
              rw [List.filter_append, filter_ne_idem]
              simp [List.filter]
          · have hins' : (strTruthy p.ProductSize &&
                pyStrip (p.ProductSize.getD "") != "") = false := by
              simp_all
            constructor
            · simp only [hins', Bool.false_eq_true, if_false]
              rw [filter_ne_then_eq_nil]
            · simp only [hins', Bool.false_eq_true, if_false]
              rw [filter_ne_idem]

/-- Witness for C10: a concrete successful update wipes the two sizes the
product had (one of them added through the size sub-resource endpoint) and
leaves exactly the request's trimmed size; the other product's size is
untouched. -/
theorem C10_update_replaces_size_list_witness :
    ({ productTypes := [(1, "Shirts")]
       products := [{ productID := 7, productName := "Red Shirt",
                      productTypeID := 1, productCategory := "apparel",
                      productDescription := none, productPrice := 12,
                      productImage := none }]
       sizes := [{ sizeID := 3, productID := 8, sizeName := "M" },
                 { sizeID := 4, productID := 7, sizeName := "M" }]
       nextSizeID := 5 } : PosDB).sizes.filter (fun s => s.productID == 7) =
      (if strTruthy (some " M ") && pyStrip ((some " M ").getD "") != "" then
        [{ sizeID := 4, productID := 7, sizeName := pyStrip ((some " M ").getD "") }]
       else []) ∧
    ({ productTypes := [(1, "Shirts")]
       products := [{ productID := 7, productName := "Red Shirt",
                      productTypeID := 1, productCategory := "apparel",
                      productDescription := none, productPrice := 12,
                      productImage := none }]
       sizes := [{ sizeID := 3, productID := 8, sizeName := "M" },
                 { sizeID := 4, productID := 7, sizeName := "M" }]
       nextSizeID := 5 } : PosDB).sizes.filter (fun s => s.productID != 7) =
      ([{ sizeID := 1, productID := 7, sizeName := "S" },
        { sizeID := 2, productID := 7, sizeName := "L" },
        { sizeID := 3, productID := 8, sizeName := "M" }] : List SizeRow).filter
        (fun s => s.productID != 7) := by
  exact C10_update_replaces_size_list constFailEnv
    { productTypes := [(1, "Shirts")]
      products := [{ productID := 7, productName := "Red Shirt",
                     productTypeID := 1, productCategory := "apparel",
                     productDescription := none, productPrice := 10,
                     productImage := none }]
      sizes := [{ sizeID := 1, productID := 7, sizeName := "S" },
                { sizeID := 2, productID := 7, sizeName := "L" },
                { sizeID := 3, productID := 8, sizeName := "M" }]
      nextSizeID := 4 }
    [] 7
    { ProductName := "Red Shirt", ProductTypeName := "Shirts",
      ProductCategory := "apparel", ProductDescription := none,
      ProductPrice := 12, ProductImage := none, ProductSize := some " M " }
    { productID := 7, productName := "Red Shirt", productTypeID := 1,
      productCategory := "apparel", productDescription := none,
      productPrice := 12, productImage := none }
    { productTypes := [(1, "Shirts")]
      products := [{ productID := 7, productName := "Red Shirt",
                     productTypeID := 1, productCategory := "apparel",
                     productDescription := none, productPrice := 12,
                     productImage := none }]
      sizes := [{ sizeID := 3, productID := 8, sizeName := "M" },
                { sizeID := 4, productID := 7, sizeName := "M" }]
      nextSizeID := 5 }
    [] (by decide)

end Spec2Proof
